import Mathlib

namespace Orbit

/-!
# Verification of the Orbit assistant core

Shallow embedding of the Orbit repository (profile document store,
checkpoint store, conversation state machine) together with proofs of the
specification claims about it.

The store is modelled per user: every `database/operations.py` function
takes a `telegram_id` and touches only that user's row, so the state is
the single row (or its absence) of the user under consideration.
-/

/-! ## Profile document store — src/database/operations.py -/

/-- The sentinel default profile text (`operations.py`, `get_user_profile`). -/
def defaultProfileDoc : String := "New user. No preferences learned yet."

/-- One row of the `user_profiles` table for the user: the stored
`user_document` column (`none` models SQL NULL) and the `version` column. -/
structure ProfileRow where
  user_document : Option String
  version : Nat
deriving DecidableEq, Repr

/-- The user's slice of the `user_profiles` table: `none` when no row
exists for this `telegram_id`. -/
abbrev ProfileState := Option ProfileRow

/-- Function `get_user_profile` (operations.py lines 7-28): selects the row; when no
row exists it returns the in-memory default document and version 0 (it does
not insert anything); otherwise it returns the stored document — substituting
the default when the stored document is NULL or empty (Python
`data.get("user_document", "") or default`) — and the stored version. -/
def get_user_profile : ProfileState → String × Nat
  | none => (defaultProfileDoc, 0)
  | some r =>
      let doc := match r.user_document with
        | none => defaultProfileDoc
        | some d => if d = "" then defaultProfileDoc else d
      (doc, r.version)

/-- Function `update_user_document` (operations.py lines 58-95): conditional UPDATE of
the row whose `telegram_id` matches and whose `version` equals
`expected_version`, setting the document and `version := expected_version + 1`;
returns whether any row was updated.  When no row exists, or the stored
version differs, nothing matches and it returns `false` leaving the state
unchanged.  The fire-and-forget `profile_history` insert that follows a
successful update is audit-only (its failure is swallowed and it never
affects the row or the returned Bool), so it is not part of the state. -/
def update_user_document (s : ProfileState) (new_document : String)
    (expected_version : Nat) : Bool × ProfileState :=
  match s with
  | none => (false, none)
  | some r =>
      if r.version = expected_version then
        (true, some ⟨some new_document, expected_version + 1⟩)
      else
        (false, some r)

/-- The version a reader currently observes (`get_user_profile`'s second
component). -/
def profileVersion (s : ProfileState) : Nat := (get_user_profile s).2

/-- Whether a CAS with the given expected version would currently succeed. -/
def canCAS : ProfileState → Nat → Bool
  | none, _ => false
  | some r, v => r.version == v

/-- A sequence of `update_user_document` calls against the same user, all
using the same `expected` version (the serialization of n concurrent
`UpdateProfile` calls, each CAS being atomic at the store).  Returns the
list of results in order together with the final state. -/
def runUpdates (expected : Nat) : ProfileState → List String → List Bool × ProfileState
  | s, [] => ([], s)
  | s, d :: ds =>
      let r := update_user_document s d expected
      let rest := runUpdates expected r.2 ds
      (r.1 :: rest.1, rest.2)

/-! ## The `update_profile` tool (AppendFact) — src/agent/orbit_agent.py lines 74-108 -/

/-- The success message returned by the `update_profile` tool. -/
def successMsg : String := "Successfully updated user profile."

/-- The distinct high-contention failure message returned after the retry
budget is exhausted. -/
def highContentionMsg : String :=
  "Failed to update profile after multiple attempts due to high traffic. Please try again later."

/-- Constant `max_retries = 3` in the tool body. -/
def max_retries : Nat := 3

/-- Interference between the tool's read and its CAS: other writers may
change the user's row while this call is "thinking".  Each attempt `i` sees
the store transformed by the `i`-th environment function after its read and
before its conditional update; an empty (or exhausted) list means no
interference. -/
abbrev Env := ProfileState → ProfileState

/-- The store as the current attempt's CAS sees it: the head interference
function applied to the store the attempt read from (no interference when
the schedule is exhausted). -/
def interfere : List Env → ProfileState → ProfileState
  | [], s => s
  | f :: _, s => f s

/-- The body of the tool's `for attempt in range(max_retries)` loop
(orbit_agent.py lines 86-102), with the remaining attempt budget as fuel:
each attempt (1) fetches the current document and version with
`get_user_profile`, (2) appends the fact as `current_doc ++ "\n- " ++ fact`,
(3) attempts `update_user_document` at the read version (against the
possibly concurrently-modified store).  On success it returns the success
message immediately; on conflict it logs, sleeps `0.5` seconds
(`time.sleep(0.5)`) and retries; when the budget is exhausted it returns
the high-contention message.  The third component records the sleeps
performed, in order.  (The tool's `except` branch returns an
`"Error: ..."` string on a store exception; the store model here raises
nothing, so only the conflict path occurs.) -/
def update_profile_go (fact : String) :
    Nat → ProfileState → List Env → String × ProfileState × List ℚ
  | 0, s, _ => (highContentionMsg, s, [])
  | n + 1, s, envs =>
      let rv := get_user_profile s
      let r := update_user_document (interfere envs s) (rv.1 ++ "\n- " ++ fact) rv.2
      if r.1 then (successMsg, r.2, [])
      else
        let rest := update_profile_go fact n r.2 envs.tail
        (rest.1, rest.2.1, (1 : ℚ) / 2 :: rest.2.2)

/-- The `update_profile` tool: runs the retry loop with its full budget of
`max_retries = 3` attempts. -/
def update_profile (fact : String) (s : ProfileState) (envs : List Env) :
    String × ProfileState × List ℚ :=
  update_profile_go fact max_retries s envs

/-- The only writers of the profile row (`update_user_document`) never
decrease the stored version, so any realistic interference is
version-monotone. -/
def EnvMono (envs : List Env) : Prop :=
  ∀ f ∈ envs, ∀ s : ProfileState, profileVersion s ≤ profileVersion (f s)

/-! ## Messages and the conversation state machine — src/agent/orbit_agent.py -/

/-- The four LangChain message roles (`SystemMessage`, `HumanMessage`,
`AIMessage`, `ToolMessage`). -/
inductive Role
  | system
  | user
  | assistant
  | tool
deriving DecidableEq, Repr

/-- A tool-call request carried by an assistant message: name, structured
arguments (rendered), and the call ID used to correlate the result. -/
structure ToolCall where
  id : String
  name : String
  args : String
deriving DecidableEq, Repr

/-- A message of the persisted history.  `id` is the stable identifier
LangGraph assigns, used for targeted deletion (`none` models a message
without an id, which `RemoveMessage` cannot target). -/
structure Msg where
  id : Option Nat := none
  role : Role
  content : String
  tool_calls : List ToolCall := []
  tool_call_id : Option String := none
deriving DecidableEq, Repr

/-- The nodes of the graph built in `_build_graph` (orbit_agent.py lines
242-283), plus the implicit terminal state `END`. -/
inductive Node
  | agent
  | tools
  | summarize
  | check_memory
  | terminal
deriving DecidableEq, Repr

/-- The label returned by the router `_should_continue` (lines 137-146):
`"tools"` when the last message carries tool calls, otherwise `END`
(modelled as `stop`).  Python indexes `state["messages"][-1]` and would
raise on an empty history, hence the `Option`. -/
inductive AgentRoute
  | tools
  | stop
deriving DecidableEq, Repr

def should_continue (msgs : List Msg) : Option AgentRoute :=
  match msgs.getLast? with
  | none => none
  | some m => if m.tool_calls ≠ [] then some .tools else some .stop

/-- The label returned by the router `_check_memory_pressure` (lines
224-233): `"summarize"` when the history holds strictly more than 75
messages, otherwise `END`. -/
inductive MemoryRoute
  | summarize
  | stop
deriving DecidableEq, Repr

def check_memory_pressure (msgs : List Msg) : MemoryRoute :=
  if msgs.length > 75 then .summarize else .stop

/-- The edge function of the compiled graph (`_build_graph`): the
conditional edge out of `agent` maps `"tools"` to the `tools` node and
`END` to `check_memory`; `tools` has the unconditional edge back to
`agent`; the conditional edge out of `check_memory` maps `"summarize"` to
`summarize` and `END` to `END`; `summarize` goes to `END`.  `none` models a
crash of the router (empty history in `_should_continue`). -/
def nextNode : Node → List Msg → Option Node
  | .agent, msgs =>
      (should_continue msgs).map (fun r => match r with
        | .tools => Node.tools
        | .stop => Node.check_memory)
  | .tools, _ => some .agent
  | .check_memory, msgs =>
      some (match check_memory_pressure msgs with
        | .summarize => Node.summarize
        | .stop => Node.terminal)
  | .summarize, _ => some .terminal
  | .terminal, _ => none

/-! ## The summarize node — `_summarize_conversation` (orbit_agent.py lines 174-222) -/

/-- Constant `PRUNE_COUNT = 30` in `_summarize_conversation`. -/
def PRUNE_COUNT : Nat := 30

/-- The `m.type` tag LangChain renders for each message class. -/
def roleText : Role → String
  | .system => "system"
  | .user => "human"
  | .assistant => "ai"
  | .tool => "tool"

/-- Python newline-join of the `f"..."` renderings `m.type ++ ": " ++ m.content` of the early messages. -/
def renderHistory (msgs : List Msg) : String :=
  String.intercalate "\n" (msgs.map (fun m => roleText m.role ++ ": " ++ m.content))

/-- Character-list helper: does the list start with the pattern? -/
def charsStart : List Char → List Char → Bool
  | _, [] => true
  | [], _ :: _ => false
  | c :: cs, p :: ps => c == p && charsStart cs ps

/-- Character-list helper: does the pattern occur anywhere in the list? -/
def charsContain : List Char → List Char → Bool
  | [], pat => charsStart [] pat
  | c :: cs, pat => charsStart (c :: cs) pat || charsContain cs pat

/-- Python substring test `pat in s`. -/
def strContains (s pat : String) : Bool := charsContain s.toList pat.toList

/-- Function `_summarize_conversation`: splits history into the oldest `PRUNE_COUNT`
messages and the remainder, renders the early prefix, reads the current
profile, and invokes the consolidation model (the external collaborator is
the parameter `llm`, applied to the current profile text and the rendered
transcript — in the source these are interpolated into
`MEMORY_CONSOLIDATION_PROMPT` and sent as one human message; `.error`
models the model call raising).  There is no try/except around the model
call, so a raise propagates out of the node.  On a response, the stripped
content replaces the whole profile via one `update_user_document` at the
previously read version (result ignored, no retry) unless it contains
`NO_UPDATE`; the node then returns one `RemoveMessage` id per early message
that has an id. -/
def summarize_conversation (llm : String → String → Except Unit String)
    (msgs : List Msg) (s : ProfileState) : Except Unit (ProfileState × List Nat) :=
  let early := msgs.take PRUNE_COUNT
  let history_text := renderHistory early
  let rv := get_user_profile s
  match llm rv.1 history_text with
  | .error e => .error e
  | .ok content =>
      let new_profile_content := content.trim
      let s' := if strContains new_profile_content "NO_UPDATE" then s
        else (update_user_document s new_profile_content rv.2).2
      .ok (s', early.filterMap (fun m => m.id))

/-- Modelled from the spec: LangGraph applying the returned `RemoveMessage`
operations to persisted history — "each removal is a targeted delete by
message ID, not a destructive rewrite of the whole log" (the LangGraph
`add_messages` reducer is not part of src/). -/
def applyRemovals (msgs : List Msg) (ids : List Nat) : List Msg :=
  msgs.filter (fun m => match m.id with
    | some i => decide (i ∉ ids)
    | none => true)

/-! ## Checkpoint store — src/database/supabase_checkpointer.py

The serializers are external libraries (`JsonPlusSerializer` and Python's
`json`), so they are parameters: `serde_dumps`/`serde_loads` are the
LangGraph serializer (bytes collapsed to `String`), `json_loads`/`json_dumps`
the conversion between that JSON text and the value stored in the JSONB
column.  The checkpointer's own logic — keying, upsert, latest-selection,
parent links, exception handling — is embedded from the source. -/

/-- The serializer stack used by `SupabaseCheckpointer`. -/
structure Serde (C V : Type) where
  serde_dumps : C → String
  serde_loads : String → C
  json_loads : String → V
  json_dumps : V → String

/-- One row of the `checkpoints` table. -/
structure CheckpointRow (V : Type) where
  thread_id : String
  checkpoint_ns : String
  checkpoint_id : String
  parent_checkpoint_id : Option String
  checkpoint : V
  metadata : V

/-- The `configurable` part of a LangChain `RunnableConfig`:
`thread_id` is required (Python indexes it directly), `checkpoint_ns`
defaults to `""` via `.get`, `checkpoint_id` is optional. -/
structure RunnableConfig where
  thread_id : String
  checkpoint_ns : Option String
  checkpoint_id : Option String
deriving DecidableEq, Repr

/-- The `CheckpointTuple` returned by `aget_tuple`. -/
structure CheckpointTuple (C : Type) where
  config : RunnableConfig
  checkpoint : C
  metadata : C
  parent_config : Option RunnableConfig

/-- Rows conflict on the upsert key `(thread_id, checkpoint_ns, checkpoint_id)`. -/
def sameKey {V : Type} (a b : CheckpointRow V) : Bool :=
  a.thread_id == b.thread_id && a.checkpoint_ns == b.checkpoint_ns &&
    a.checkpoint_id == b.checkpoint_id

/-- Upsert `supabase.table("checkpoints").upsert(data)`: replace the row with the
same key if one exists, otherwise append. -/
def upsertRow {V : Type} (db : List (CheckpointRow V)) (row : CheckpointRow V) :
    List (CheckpointRow V) :=
  if db.any (fun r => sameKey r row) then
    db.map (fun r => if sameKey r row then row else r)
  else db ++ [row]

/-- The `.eq("thread_id", ...).eq("checkpoint_ns", ...)` filters, plus
`.eq("checkpoint_id", ...)` when a checkpoint id is requested. -/
def matchesQuery {V : Type} (thread_id ns : String) (cpid : Option String)
    (r : CheckpointRow V) : Bool :=
  r.thread_id == thread_id && r.checkpoint_ns == ns &&
    (match cpid with
     | some i => r.checkpoint_id == i
     | none => true)

/-- Query `.order("checkpoint_id", desc=True).limit(1)` then `data[0]`: the row
with the largest `checkpoint_id` (string order), if any. -/
def latestRow {V : Type} : List (CheckpointRow V) → Option (CheckpointRow V)
  | [] => none
  | r :: rs =>
      match latestRow rs with
      | none => some r
      | some b => if r.checkpoint_id < b.checkpoint_id then some b else some r

/-- Method `aget_tuple` (supabase_checkpointer.py lines 18-70): query by thread and
namespace, narrowing to the requested checkpoint id or taking the latest;
`None` when nothing matches.  The returned tuple carries the caller's
config, the deserialized checkpoint and metadata
(`serde.loads(json.dumps(row[...]).encode())`), and a parent config built
from `parent_checkpoint_id` when that is truthy (Python `if parent_id`
treats `""` like `None`). -/
def aget_tuple {C V : Type} (S : Serde C V) (db : List (CheckpointRow V))
    (config : RunnableConfig) : Option (CheckpointTuple C) :=
  let thread_id := config.thread_id
  let ns := config.checkpoint_ns.getD ""
  let rows := db.filter (matchesQuery thread_id ns config.checkpoint_id)
  let row? := match config.checkpoint_id with
    | some _ => rows.head?
    | none => latestRow rows
  match row? with
  | none => none
  | some row =>
      some { config := config
             checkpoint := S.serde_loads (S.json_dumps row.checkpoint)
             metadata := S.serde_loads (S.json_dumps row.metadata)
             parent_config :=
               match row.parent_checkpoint_id with
               | none => none
               | some pid =>
                   if pid = "" then none
                   else some ⟨thread_id, some ns, some pid⟩ }

/-- Method `aput` (supabase_checkpointer.py lines 115-174): serialize checkpoint
and metadata (`json.loads(serde.dumps(...))` into the JSONB column), upsert
the row keyed by `(thread_id, ns, checkpoint["id"])` with the parent taken
from the incoming config's `checkpoint_id`, and return the new config.
The whole body sits in a `try`: if the backing-store write raises
(`storeRaises`), the exception is caught and logged and the caller's
original config is returned with the store untouched. -/
def aput {C V : Type} (S : Serde C V) (cid : C → String)
    (db : List (CheckpointRow V)) (config : RunnableConfig)
    (checkpoint : C) (metadata : C) (storeRaises : Bool) :
    List (CheckpointRow V) × RunnableConfig :=
  let thread_id := config.thread_id
  let ns := config.checkpoint_ns.getD ""
  let checkpoint_id := cid checkpoint
  let parent_id := config.checkpoint_id
  if storeRaises then (db, config)
  else
    (upsertRow db
      { thread_id := thread_id
        checkpoint_ns := ns
        checkpoint_id := checkpoint_id
        parent_checkpoint_id := parent_id
        checkpoint := S.json_loads (S.serde_dumps checkpoint)
        metadata := S.json_loads (S.serde_dumps metadata) },
     ⟨thread_id, some ns, some checkpoint_id⟩)

/-- One row of the `checkpoint_writes` table that pending writes would be
stored in. -/
structure PendingWriteRow (W : Type) where
  thread_id : String
  task_id : String
  channel : String
  value : W

/-- Method `aput_writes` (supabase_checkpointer.py lines 176-189): the body is
`pass` — it accepts the writes and returns without touching any store. -/
def aput_writes {W : Type} (store : List (PendingWriteRow W))
    (config : RunnableConfig) (writes : List (String × W)) (task_id : String) :
    List (PendingWriteRow W) :=
  store

/-! ## Calendar delete tool — src/integrations/google_calendar.py lines 195-205 -/

/-- The external Google Calendar service behavior for a delete request
(collaborator, §6 of the spec): deleting an existing event succeeds;
deleting a nonexistent id raises an HTTP error.  The calendar is modelled
as the list of existing event ids. -/
def service_delete (events : List String) (event_id : String) :
    Except String (List String) :=
  if events.contains event_id then Except.ok (events.erase event_id)
  else Except.error "HttpError 404: Event not found"

/-- Method `delete_event`: calls the service inside a `try`; on success returns
`True`, on any exception logs it and returns `False` (the error text is not
propagated). -/
def delete_event (events : List String) (event_id : String) : Bool × List String :=
  match service_delete events event_id with
  | .ok evs => (true, evs)
  | .error _ => (false, events)

/-- Python `str` of a bool, as it ends up in the tool message content. -/
def boolText : Bool → String
  | true => "True"
  | false => "False"

/-- The `@tool delete_event` wrapper bound in `_bind_tools` (orbit_agent.py
lines 69-72): it returns the client's boolean result; since `delete_event`
catches the service exception itself, the tool call returns normally
(`.error` would model the tool raising, which this tool never does). -/
def run_delete_tool (events : List String) (event_id : String) :
    Except String String :=
  Except.ok (boolText (delete_event events event_id).1)

/-- Modelled from the spec: LangGraph's prebuilt `ToolNode` (not part of
src/) dispatches each requested call, captures "its result or error text",
and appends "a Tool message correlated by call ID". -/
def tool_message_of (call : ToolCall) (r : Except String String) : Msg :=
  { id := none
    role := .tool
    content := match r with
      | .ok s => s
      | .error e => e
    tool_call_id := some call.id }

/-- One `ToolNode` dispatch of a `delete_event` call: run the tool on the
call's argument, append the correlated Tool message, and return the
(possibly updated) calendar state. -/
def tool_node_delete_step (events : List String) (msgs : List Msg)
    (call : ToolCall) : List Msg × List String :=
  (msgs ++ [tool_message_of call (run_delete_tool events call.args)],
   (delete_event events call.args).2)

/-! ## Prompt assembly — `_get_system_message` / `_call_model` (orbit_agent.py lines 112-172) -/

/-- Function `get_user_timezone` (operations.py lines 30-42): the stored timezone,
`"UTC"` when the user has no row (and on any query error). -/
def get_user_timezone (tzRow : Option String) : String := tzRow.getD "UTC"

/-- Template `ORBIT_SYSTEM_PROMPT.format(user_document=..., current_time=...)`
(agent/prompts.py): the template with the two values interpolated. -/
def ORBIT_SYSTEM_PROMPT (user_document current_time : String) : String :=
  "You are Orbit, an AI Executive Function Assistant.\n" ++
  "Your goal is to help your user manage their time and tasks effectively.\n\n" ++
  "### User Profile\n" ++
  "The following is your understanding of the user and their preferences:\n" ++
  user_document ++
  "\n\n### Current Context\n" ++
  "The current time is: " ++ current_time ++
  "\n\n### Capabilities\n" ++
  "You have access to Google Calendar. You can:\n" ++
  "- List events: `get_events`\n" ++
  "- Create events: `create_event`\n" ++
  "- Search events: `search_events`\n" ++
  "- Update events: `update_event`\n" ++
  "- Delete events: `delete_event`\n\n" ++
  "### Tool Usage Rules\n" ++
  "1. ALWAYS use the `telegram_id` provided in the tool call arguments when calling tools that require it (though most tools on the client class handle it, the binding might require context).\n" ++
  "2. Actually, the tools are instance methods bound to a client initialized with the telegram_id. \n" ++
  "   **CRITICAL**: You must pass the arguments required by the tools as defined in their schema.\n\n" ++
  "### Memory & Learning\n" ++
  "- You have long-term memory via the User Profile.\n" ++
  "- If you learn something new about the user (e.g., they hate early meetings), you should suggest updating the profile (Self-Correction/Reflection would handle this, but for now we rely on explicit updates or memory compression).\n\n" ++
  "### Tone & Style\n" ++
  "- Be proactive but polite.\n" ++
  "- Be concise.\n"

/-- The `try: ZoneInfo(...) ... except: UTC` block of `_get_system_message`:
`localRender` is the external timezone/clock collaborator (rendering now in
the named zone, `.error` modelling any resolution failure), `utcRender` the
UTC-formatted fallback string. -/
def current_time_str (tz : String) (localRender : String → Except Unit String)
    (utcRender : String) : String :=
  match localRender tz with
  | .ok t => t
  | .error _ => utcRender

/-- Function `_get_system_message`: a fresh system message whose content is the
prompt template filled with the current profile text and the current time
in the user's timezone (UTC fallback). -/
def get_system_message (s : ProfileState) (tzRow : Option String)
    (localRender : String → Except Unit String) (utcRender : String) : Msg :=
  { role := .system
    content := ORBIT_SYSTEM_PROMPT (get_user_profile s).1
      (current_time_str (get_user_timezone tzRow) localRender utcRender) }

/-- Function `_call_model` (orbit_agent.py lines 148-172): filter every stored
system message out of the history, prepend the freshly computed system
message, invoke the model on that list, and return the prompt that was sent
together with the response.  The node's state update is `[response]` only —
the filtered prompt is never written back. -/
def call_model (sys_msg : Msg) (msgs : List Msg) (llm : List Msg → Msg) :
    List Msg × Msg :=
  let final_messages := sys_msg :: msgs.filter (fun m => m.role != Role.system)
  (final_messages, llm final_messages)

/-- Modelled from the spec: LangGraph merging an AGENT node's returned
message list into persisted history by appending ("append its response
message to history" — the `add_messages` reducer is not part of src/). -/
def apply_messages_update (history update : List Msg) : List Msg :=
  history ++ update

/-! ### Helper lemmas for the CAS store -/

theorem profileVersion_none : profileVersion none = 0 := rfl

theorem profileVersion_some (r : ProfileRow) : profileVersion (some r) = r.version := rfl

theorem update_of_canCAS_false {s : ProfileState} {v : Nat} (h : canCAS s v = false)
    (d : String) : update_user_document s d v = (false, s) := by
  cases s with
  | none => rfl
  | some r =>
      simp only [canCAS] at h
      have h' : r.version ≠ v := by simpa using h
      simp [update_user_document, h']

theorem update_of_canCAS_true {s : ProfileState} {v : Nat} (h : canCAS s v = true)
    (d : String) : update_user_document s d v = (true, some ⟨some d, v + 1⟩) := by
  cases s with
  | none => simp [canCAS] at h
  | some r =>
      simp only [canCAS, beq_iff_eq] at h
      simp [update_user_document, h]

theorem canCAS_after_success (d : String) (v : Nat) :
    canCAS (some ⟨some d, v + 1⟩) v = false := by
  simp [canCAS]

theorem runUpdates_all_fail (v : Nat) :
    ∀ (docs : List String) (s : ProfileState), canCAS s v = false →
      runUpdates v s docs = (List.replicate docs.length false, s) := by
  intro docs
  induction docs with
  | nil => intro s _; rfl
  | cons d ds ih =>
      intro s h
      simp [runUpdates, update_of_canCAS_false h, ih s h, List.replicate]

theorem runUpdates_count_le_one (v : Nat) :
    ∀ (docs : List String) (s : ProfileState),
      ((runUpdates v s docs).1.count true) ≤ 1 := by
  intro docs
  induction docs with
  | nil => intro s; simp [runUpdates]
  | cons d ds ih =>
      intro s
      by_cases h : canCAS s v = true
      · have hafter : canCAS (some ⟨some d, v + 1⟩) v = false := canCAS_after_success d v
        simp [runUpdates, update_of_canCAS_true h,
          runUpdates_all_fail v ds _ hafter, List.count_replicate]
      · have h' : canCAS s v = false := by
          cases hc : canCAS s v with
          | true => exact absurd hc h
          | false => rfl
        simp only [runUpdates, update_of_canCAS_false h' d]
        have := ih s
        simpa [List.count_cons] using this

theorem runUpdates_success_version (v : Nat) :
    ∀ (docs : List String) (s : ProfileState),
      true ∈ (runUpdates v s docs).1 →
      profileVersion (runUpdates v s docs).2 = v + 1 := by
  intro docs
  induction docs with
  | nil => intro s h; simp [runUpdates] at h
  | cons d ds ih =>
      intro s hmem
      by_cases h : canCAS s v = true
      · have hafter : canCAS (some ⟨some d, v + 1⟩) v = false := canCAS_after_success d v
        simp [runUpdates, update_of_canCAS_true h,
          runUpdates_all_fail v ds _ hafter, profileVersion_some]
      · have h' : canCAS s v = false := by
          cases hc : canCAS s v with
          | true => exact absurd hc h
          | false => rfl
        simp only [runUpdates, update_of_canCAS_false h' d] at hmem ⊢
        simp only [List.mem_cons] at hmem
        rcases hmem with hmem | hmem
        · exact absurd hmem.symm Bool.false_ne_true
        · exact ih s hmem

/-! ## Claim theorems: C1 and C2 -/

/-- C1: a `update_user_document` call with a given `expected_version`
returns `true` and replaces the stored document, setting the stored version
to exactly `expected_version + 1`, if and only if the stored version equals
`expected_version`; otherwise it returns `false` and leaves the stored row
unchanged.  Consequently, of any sequence of such calls against the same
user all using the same `expected_version = v`, at most one succeeds, and
when one succeeds the stored version afterwards is exactly `v + 1`. -/
theorem update_user_document_cas_iff :
    ∀ (r : ProfileRow) (new_document : String) (expected : Nat),
      ((update_user_document (some r) new_document expected).1 = true ↔
        r.version = expected)
      ∧ (r.version = expected →
          (update_user_document (some r) new_document expected).2 =
            some ⟨some new_document, expected + 1⟩)
      ∧ (r.version ≠ expected →
          update_user_document (some r) new_document expected = (false, some r))
      ∧ ∀ (s : ProfileState) (v : Nat) (docs : List String),
          ((runUpdates v s docs).1.count true ≤ 1)
          ∧ (true ∈ (runUpdates v s docs).1 →
              profileVersion (runUpdates v s docs).2 = v + 1) := by
  intro r new_document expected
  refine ⟨?_, ?_, ?_, ?_⟩
  · constructor
    · intro h
      by_contra hne
      simp [update_user_document, hne] at h
    · intro h; simp [update_user_document, h]
  · intro h; simp [update_user_document, h]
  · intro h; simp [update_user_document, h]
  · intro s v docs
    exact ⟨runUpdates_count_le_one v docs s, runUpdates_success_version v docs s⟩

/-- Witness for C1 at concrete inputs: a matching CAS at version 3 succeeds
and stores version 4; a mismatched CAS fails and changes nothing; a run of
two conflicting writers against version 3 ends at version exactly 4. -/
theorem update_user_document_cas_iff_witness :
    (update_user_document (some ⟨some "d", 3⟩) "n" 3).1 = true
    ∧ (update_user_document (some ⟨some "d", 3⟩) "n" 3).2 = some ⟨some "n", 4⟩
    ∧ update_user_document (some ⟨some "d", 3⟩) "n" 5 = (false, some ⟨some "d", 3⟩)
    ∧ profileVersion (runUpdates 3 (some ⟨some "d", 3⟩) ["a", "b"]).2 = 4 := by
  refine ⟨?_, ?_, ?_, ?_⟩
  · exact (update_user_document_cas_iff ⟨some "d", 3⟩ "n" 3).1.mpr rfl
  · exact (update_user_document_cas_iff ⟨some "d", 3⟩ "n" 3).2.1 rfl
  · exact (update_user_document_cas_iff ⟨some "d", 3⟩ "n" 5).2.2.1 (by decide)
  · exact ((update_user_document_cas_iff ⟨some "d", 3⟩ "n" 3).2.2.2
      (some ⟨some "d", 3⟩) 3 ["a", "b"]).2 (by decide)

/-- C2 counterexample: for a user with no stored profile row,
`get_user_profile` does return the sentinel default text and version 0 —
but no row is created by the read, so the subsequent `update_user_document`
with `expected_version = 0` matches no row and returns `false` (leaving
still no row), instead of succeeding and producing version 1 as the claim
states. -/
theorem missing_row_update_fails_counterexample :
    get_user_profile none = (defaultProfileDoc, 0)
    ∧ update_user_document none "New user. No preferences learned yet.\n- Likes tea" 0 =
        (false, none) := by
  exact ⟨rfl, rfl⟩

/-- C2 amended: `get_user_profile` for a user with no stored row returns the
sentinel default text and version 0, but creates no row; a subsequent
`update_user_document` with any expected version (in particular 0) then
fails, returning `false` and changing nothing, because the conditional
update matches no row.  An update with `expected_version = 0` succeeds and
produces version 1 exactly when a profile row with version 0 already
exists. -/
theorem profile_default_read_and_cas_amended :
    get_user_profile none = (defaultProfileDoc, 0)
    ∧ (∀ (d : String) (v : Nat), update_user_document none d v = (false, none))
    ∧ (∀ (r : ProfileRow) (d : String), r.version = 0 →
        (update_user_document (some r) d 0).1 = true
        ∧ profileVersion (update_user_document (some r) d 0).2 = 1) := by
  refine ⟨rfl, fun d v => rfl, fun r d h => ?_⟩
  constructor
  · simp [update_user_document, h]
  · simp [update_user_document, h, profileVersion_some]

/-- Witness for C2's amended theorem at a concrete row with version 0. -/
theorem profile_default_read_and_cas_amended_witness :
    (update_user_document (some ⟨none, 0⟩) "doc" 0).1 = true
    ∧ profileVersion (update_user_document (some ⟨none, 0⟩) "doc" 0).2 = 1 := by
  exact profile_default_read_and_cas_amended.2.2 ⟨none, 0⟩ "doc" rfl

theorem appended_doc_ne_empty (d fact : String) : d ++ "\n- " ++ fact ≠ "" := by
  intro h
  have hlen := congrArg String.length h
  rw [String.length_append, String.length_append, String.length_empty] at hlen
  have h3 : String.length "\n- " = 3 := rfl
  rw [h3] at hlen
  omega

theorem get_user_profile_after_append (d fact : String) (v : Nat) :
    get_user_profile (some ⟨some (d ++ "\n- " ++ fact), v⟩) =
      (d ++ "\n- " ++ fact, v) := by
  simp [get_user_profile, appended_doc_ne_empty d fact]

theorem interfere_mono {envs : List Env} (h : EnvMono envs) (s : ProfileState) :
    profileVersion s ≤ profileVersion (interfere envs s) := by
  cases envs with
  | nil => exact Nat.le_refl _
  | cons f fs => exact h f (List.mem_cons_self f fs) s

theorem envMono_tail {envs : List Env} (h : EnvMono envs) : EnvMono envs.tail := by
  intro f hf s
  cases envs with
  | nil => simp at hf
  | cons g gs => exact h f (List.mem_cons_of_mem g hf) s

theorem update_profile_go_spec (fact : String) :
    ∀ (n : Nat) (s : ProfileState) (envs : List Env), EnvMono envs →
      (update_profile_go fact n s envs).2.2.length ≤ n
      ∧ (∀ q ∈ (update_profile_go fact n s envs).2.2, q = (1 : ℚ) / 2)
      ∧ ((update_profile_go fact n s envs).1 = successMsg
          ∨ ((update_profile_go fact n s envs).1 = highContentionMsg
              ∧ (update_profile_go fact n s envs).2.2.length = n))
      ∧ ((update_profile_go fact n s envs).1 = successMsg →
          (∃ d, (get_user_profile (update_profile_go fact n s envs).2.1).1 =
              d ++ "\n- " ++ fact)
          ∧ profileVersion s ≤ profileVersion (update_profile_go fact n s envs).2.1) := by
  intro n
  induction n with
  | zero =>
      intro s envs _
      refine ⟨Nat.le_refl 0, ?_, Or.inr ⟨rfl, rfl⟩, ?_⟩
      · intro q hq; simp [update_profile_go] at hq
      · intro h
        exact absurd h (by simp [update_profile_go, successMsg, highContentionMsg])
  | succ n ih =>
      intro s envs hmono
      by_cases hcas :
          (update_user_document (interfere envs s)
            ((get_user_profile s).1 ++ "\n- " ++ fact) (get_user_profile s).2).1 = true
      · -- this attempt's CAS succeeds: the tool returns at once
        have hconc : update_user_document (interfere envs s)
            ((get_user_profile s).1 ++ "\n- " ++ fact) (get_user_profile s).2 =
            (true, some ⟨some ((get_user_profile s).1 ++ "\n- " ++ fact),
              (get_user_profile s).2 + 1⟩) := by
          cases henv : interfere envs s with
          | none => rw [henv] at hcas; simp [update_user_document] at hcas
          | some r2 =>
              rw [henv] at hcas
              by_cases hv : r2.version = (get_user_profile s).2
              · simp [update_user_document, hv]
              · simp [update_user_document, hv] at hcas
        have hrun : update_profile_go fact (n + 1) s envs =
            (successMsg, some ⟨some ((get_user_profile s).1 ++ "\n- " ++ fact),
              (get_user_profile s).2 + 1⟩, []) := by
          simp only [update_profile_go]
          rw [hconc]
          simp
        refine ⟨?_, ?_, Or.inl ?_, ?_⟩
        · rw [hrun]; simp
        · rw [hrun]; intro q hq; simp at hq
        · rw [hrun]
        · rw [hrun]
          intro _
          refine ⟨⟨(get_user_profile s).1, ?_⟩, ?_⟩
          · simp [get_user_profile_after_append]
          · simp only [profileVersion_some]
            exact Nat.le_succ _
      · -- conflict: the state after the failed CAS is the interfered store
        have hfalse : (update_user_document (interfere envs s)
            ((get_user_profile s).1 ++ "\n- " ++ fact) (get_user_profile s).2).1 = false := by
          cases hb : (update_user_document (interfere envs s)
            ((get_user_profile s).1 ++ "\n- " ++ fact) (get_user_profile s).2).1 with
          | true => exact absurd hb hcas
          | false => rfl
        have hconc : update_user_document (interfere envs s)
            ((get_user_profile s).1 ++ "\n- " ++ fact) (get_user_profile s).2 =
            (false, interfere envs s) := by
          cases henv : interfere envs s with
          | none => simp [update_user_document]
          | some r2 =>
              rw [henv] at hfalse
              by_cases hv : r2.version = (get_user_profile s).2
              · simp [update_user_document, hv] at hfalse
              · simp [update_user_document, hv]
        have hrun : update_profile_go fact (n + 1) s envs =
            ((update_profile_go fact n (interfere envs s) envs.tail).1,
             (update_profile_go fact n (interfere envs s) envs.tail).2.1,
             (1 : ℚ) / 2 :: (update_profile_go fact n (interfere envs s) envs.tail).2.2) := by
          simp only [update_profile_go]
          rw [hconc]
          simp
        obtain ⟨ihlen, ihhalf, ihmsg, ihsucc⟩ :=
          ih (interfere envs s) envs.tail (envMono_tail hmono)
        refine ⟨?_, ?_, ?_, ?_⟩
        · rw [hrun]; simpa using Nat.succ_le_succ ihlen
        · rw [hrun]
          intro q hq
          rcases List.mem_cons.mp hq with hq | hq
          · exact hq
          · exact ihhalf q hq
        · rw [hrun]
          rcases ihmsg with hmsg | ⟨hmsg, hlen⟩
          · exact Or.inl hmsg
          · exact Or.inr ⟨hmsg, by simp [hlen]⟩
        · rw [hrun]
          intro hsucc
          obtain ⟨hdoc, hver⟩ := ihsucc hsucc
          exact ⟨hdoc, Nat.le_trans (interfere_mono hmono s) hver⟩

/-! ## Claim theorem: C3 -/

/-- C3: the `update_profile` tool is a bounded CAS retry loop: it makes at
most `max_retries = 3` attempts, re-reading the document before each CAS;
each backoff between attempts is exactly the fixed `0.5` time units; when
the budget is exhausted it returns the distinct high-contention message
(never silently dropping the fact — the result is always one of the two
report strings, and they differ); and whenever it reports success, the
final document is some document with `"\n- " ++ fact` appended (the fact is
durably present) at a version `≥` the version read when the call started
(assuming interference, like every writer of this store, never decreases
the stored version). -/
theorem update_profile_retry_spec (fact : String) (s : ProfileState)
    (envs : List Env) (hmono : EnvMono envs) :
    (update_profile fact s envs).2.2.length ≤ max_retries
    ∧ (∀ q ∈ (update_profile fact s envs).2.2, q = (1 : ℚ) / 2)
    ∧ ((update_profile fact s envs).1 = successMsg
        ∨ ((update_profile fact s envs).1 = highContentionMsg
            ∧ (update_profile fact s envs).2.2.length = max_retries))
    ∧ successMsg ≠ highContentionMsg
    ∧ ((update_profile fact s envs).1 = successMsg →
        (∃ d, (get_user_profile (update_profile fact s envs).2.1).1 =
            d ++ "\n- " ++ fact)
        ∧ profileVersion s ≤ profileVersion (update_profile fact s envs).2.1) := by
  obtain ⟨h1, h2, h3, h4⟩ := update_profile_go_spec fact max_retries s envs hmono
  exact ⟨h1, h2, h3, by simp [successMsg, highContentionMsg], h4⟩

/-- Witness for C3 at concrete inputs: with no interference and a stored
row at version 0, the tool succeeds with no backoff sleeps and the fact is
present in the resulting document at version 1 ≥ 0. -/
theorem update_profile_retry_spec_witness :
    (update_profile "Likes tea" (some ⟨some "Doc", 0⟩) []).2.2.length ≤ max_retries
    ∧ (∃ d, (get_user_profile
        (update_profile "Likes tea" (some ⟨some "Doc", 0⟩) []).2.1).1 =
          d ++ "\n- " ++ "Likes tea") := by
  have hmono : EnvMono [] := by
    intro f hf s'
    simp at hf
  have h := update_profile_retry_spec "Likes tea" (some ⟨some "Doc", 0⟩) [] hmono
  refine ⟨h.1, (h.2.2.2.2 ?_).1⟩
  rfl

/-! ## Claim theorem: C4 -/

/-- C4: the `check_memory` state transitions to `summarize` if and only if
the history holds strictly more than the fixed threshold of 75 messages;
with at most 75 messages it goes to the terminal state instead, so the
turn ends without entering `summarize`.  Moreover `summarize` is reachable
only as the successor of `check_memory`. -/
theorem check_memory_threshold_iff :
    ∀ (msgs : List Msg),
      (nextNode .check_memory msgs = some .summarize ↔ 75 < msgs.length)
      ∧ (nextNode .check_memory msgs = some .terminal ↔ msgs.length ≤ 75)
      ∧ ∀ (n : Node), nextNode n msgs = some .summarize → n = .check_memory := by
  intro msgs
  refine ⟨?_, ?_, ?_⟩
  · constructor
    · intro h
      by_contra hle
      simp [nextNode, check_memory_pressure, hle] at h
    · intro h
      simp [nextNode, check_memory_pressure, h]
  · constructor
    · intro h
      by_contra hgt
      have hgt' : 75 < msgs.length := by omega
      simp [nextNode, check_memory_pressure, hgt'] at h
    · intro h
      have : ¬ 75 < msgs.length := by omega
      simp [nextNode, check_memory_pressure, this]
  · intro n h
    cases n with
    | agent =>
        exfalso
        cases hlast : msgs.getLast? with
        | none => simp [nextNode, should_continue, hlast] at h
        | some m =>
            by_cases htc : m.tool_calls = []
            · simp [nextNode, should_continue, hlast, htc] at h
            · simp [nextNode, should_continue, hlast, htc] at h
    | tools => simp [nextNode] at h
    | summarize => simp [nextNode] at h
    | check_memory => rfl
    | terminal => simp [nextNode] at h

/-- Witness for C4 at concrete histories: 76 user messages route to
`summarize`; 75 route to the terminal state. -/
theorem check_memory_threshold_iff_witness :
    nextNode .check_memory
      ((List.range 76).map (fun i => { id := some i, role := .user, content := "m" }))
      = some .summarize
    ∧ nextNode .check_memory
      ((List.range 75).map (fun i => { id := some i, role := .user, content := "m" }))
      = some .terminal := by
  constructor
  · exact (check_memory_threshold_iff _).1.mpr (by simp)
  · exact (check_memory_threshold_iff _).2.1.mpr (by simp)

theorem applyRemovals_append (l1 l2 : List Msg) (ids : List Nat)
    (h1 : ∀ m ∈ l1, ∃ i, m.id = some i ∧ i ∈ ids)
    (h2 : ∀ m ∈ l2, ∀ i, m.id = some i → i ∉ ids) :
    applyRemovals (l1 ++ l2) ids = l2 := by
  unfold applyRemovals
  rw [List.filter_append]
  have e1 : l1.filter (fun m => match m.id with
      | some i => decide (i ∉ ids)
      | none => true) = [] := by
    rw [List.filter_eq_nil_iff]
    intro m hm
    obtain ⟨i, hmi, hin⟩ := h1 m hm
    simp [hmi, hin]
  have e2 : l2.filter (fun m => match m.id with
      | some i => decide (i ∉ ids)
      | none => true) = l2 := by
    rw [List.filter_eq_self]
    intro m hm
    cases hmi : m.id with
    | none => simp
    | some i => simp [h2 m hm i hmi]
  rw [e1, e2, List.nil_append]

theorem applyRemovals_take_drop (msgs : List Msg) (n : Nat)
    (hid : ∀ m ∈ msgs.take n, (m.id).isSome = true)
    (hnd : (msgs.filterMap (fun m => m.id)).Nodup) :
    applyRemovals msgs ((msgs.take n).filterMap (fun m => m.id)) = msgs.drop n := by
  have hsplit : msgs.take n ++ msgs.drop n = msgs := List.take_append_drop n msgs
  have hnd' : ((msgs.take n).filterMap (fun m => m.id) ++
      (msgs.drop n).filterMap (fun m => m.id)).Nodup := by
    rw [← List.filterMap_append, hsplit]
    exact hnd
  have hdisj := (List.nodup_append.mp hnd').2.2
  have key := applyRemovals_append (msgs.take n) (msgs.drop n)
    ((msgs.take n).filterMap (fun m => m.id))
    (by
      intro m hm
      have hs := hid m hm
      cases hmi : m.id with
      | none => rw [hmi] at hs; simp at hs
      | some i => exact ⟨i, rfl, List.mem_filterMap.mpr ⟨m, hm, hmi⟩⟩)
    (by
      intro m hm i hmi hin
      exact hdisj hin (List.mem_filterMap.mpr ⟨m, hm, hmi⟩))
  rw [hsplit] at key
  exact key

/-! ## Claim theorems: C5 -/

/-- C5 counterexample: when the consolidation model call raises during the
summarize node, the exception propagates out of `_summarize_conversation`
(there is no try/except around the model call), so the node produces no
`RemoveMessage` operations at all — the message-pruning step is aborted,
contradicting the claim that pruning happens regardless and that a model
failure degrades without aborting it. -/
theorem summarize_llm_failure_counterexample :
    summarize_conversation (fun _ _ => Except.error ())
      ((List.range 76).map (fun i => { id := some i, role := Role.user, content := "m" }))
      (some ⟨some "Doc", 0⟩) = Except.error () := rfl

/-- C5 amended: when the consolidation model call returns (is not an
exception), the summarize node removes exactly the oldest `PRUNE_COUNT = 30`
messages via targeted per-message-ID deletions — applying the returned
deletions to the history yields precisely the remaining messages, untouched
and in original order (given that the early messages carry ids and ids are
unique) — and it does so regardless of the consolidation outcome: the
deletion list is the same whether or not the profile is rewritten, and a
`NO_UPDATE` response leaves the profile unchanged.  However an exception
from the model call propagates and aborts the node, pruning included. -/
theorem summarize_prunes_amended :
    (∀ (llm : String → String → Except Unit String) (msgs : List Msg)
        (s : ProfileState) (resp : String),
      llm (get_user_profile s).1 (renderHistory (msgs.take PRUNE_COUNT)) =
        Except.ok resp →
      (∀ m ∈ msgs.take PRUNE_COUNT, (m.id).isSome = true) →
      (msgs.filterMap (fun m => m.id)).Nodup →
      ∃ s', summarize_conversation llm msgs s =
          Except.ok (s', (msgs.take PRUNE_COUNT).filterMap (fun m => m.id))
        ∧ applyRemovals msgs ((msgs.take PRUNE_COUNT).filterMap (fun m => m.id)) =
            msgs.drop PRUNE_COUNT
        ∧ (strContains resp.trim "NO_UPDATE" = true → s' = s))
    ∧ ∀ (llm : String → String → Except Unit String) (msgs : List Msg)
        (s : ProfileState) (e : Unit),
      llm (get_user_profile s).1 (renderHistory (msgs.take PRUNE_COUNT)) =
        Except.error e →
      summarize_conversation llm msgs s = Except.error e := by
  constructor
  · intro llm msgs s resp hok hid hnd
    refine ⟨if strContains resp.trim "NO_UPDATE" then s
      else (update_user_document s resp.trim (get_user_profile s).2).2, ?_, ?_, ?_⟩
    · simp only [summarize_conversation, hok]
    · exact applyRemovals_take_drop msgs PRUNE_COUNT hid hnd
    · intro h; simp [h]
  · intro llm msgs s e herr
    simp only [summarize_conversation, herr]

/-- Witness for C5's amended theorem at a concrete input: two messages with
ids 0 and 1 and a `NO_UPDATE` response — the node returns both ids for
deletion and leaves the profile untouched. -/
theorem summarize_prunes_amended_witness :
    ∃ s' : ProfileState,
      summarize_conversation (fun _ _ => Except.ok "NO_UPDATE")
        ([({ id := some 0, role := Role.user, content := "a" } : Msg),
          ({ id := some 1, role := Role.assistant, content := "b" } : Msg)]) none =
        Except.ok (s',
          (([({ id := some 0, role := Role.user, content := "a" } : Msg),
             ({ id := some 1, role := Role.assistant, content := "b" } : Msg)]).take
              PRUNE_COUNT).filterMap (fun m => m.id))
      ∧ applyRemovals
          ([({ id := some 0, role := Role.user, content := "a" } : Msg),
            ({ id := some 1, role := Role.assistant, content := "b" } : Msg)])
          ((([({ id := some 0, role := Role.user, content := "a" } : Msg),
              ({ id := some 1, role := Role.assistant, content := "b" } : Msg)]).take
              PRUNE_COUNT).filterMap (fun m => m.id)) =
          ([({ id := some 0, role := Role.user, content := "a" } : Msg),
            ({ id := some 1, role := Role.assistant, content := "b" } : Msg)]).drop
            PRUNE_COUNT
      ∧ (strContains (String.trim "NO_UPDATE") "NO_UPDATE" = true → s' = none) := by
  exact summarize_prunes_amended.1 (fun _ _ => Except.ok "NO_UPDATE")
    ([({ id := some 0, role := Role.user, content := "a" } : Msg),
      ({ id := some 1, role := Role.assistant, content := "b" } : Msg)]) none "NO_UPDATE"
    rfl (by decide) (by decide)

/-! ## Claim theorems: C6, C7, C10 -/

/-- C6: checkpoint round-trip.  Under the serializer contract (deserializing
what was serialized, reformatted through the JSON layer, gives the value
back) and monotonically ordered nonempty checkpoint ids: after `aput`
writes C1 (parent none, starting from an empty store) and then C2 (parent
C1, using the config returned by the first put), reading either checkpoint
back by id yields exactly the state and metadata that were written; reading
"latest" returns C2 with a parent link to C1; and following that parent
link resolves to C1. -/
theorem checkpoint_roundtrip_spec :
    ∀ (C V : Type) (S : Serde C V) (cid : C → String),
      (∀ c, S.serde_loads (S.json_dumps (S.json_loads (S.serde_dumps c))) = c) →
      ∀ (tid : String) (c1 m1 c2 m2 : C),
      cid c1 < cid c2 → cid c1 ≠ "" →
      aget_tuple S (aput S cid
          (aput S cid [] ⟨tid, none, none⟩ c1 m1 false).1
          (aput S cid [] ⟨tid, none, none⟩ c1 m1 false).2 c2 m2 false).1
          ⟨tid, none, some (cid c1)⟩ =
        some ⟨⟨tid, none, some (cid c1)⟩, c1, m1, none⟩
      ∧ aget_tuple S (aput S cid
          (aput S cid [] ⟨tid, none, none⟩ c1 m1 false).1
          (aput S cid [] ⟨tid, none, none⟩ c1 m1 false).2 c2 m2 false).1
          ⟨tid, none, some (cid c2)⟩ =
        some ⟨⟨tid, none, some (cid c2)⟩, c2, m2, some ⟨tid, some "", some (cid c1)⟩⟩
      ∧ aget_tuple S (aput S cid
          (aput S cid [] ⟨tid, none, none⟩ c1 m1 false).1
          (aput S cid [] ⟨tid, none, none⟩ c1 m1 false).2 c2 m2 false).1
          ⟨tid, none, none⟩ =
        some ⟨⟨tid, none, none⟩, c2, m2, some ⟨tid, some "", some (cid c1)⟩⟩
      ∧ aget_tuple S (aput S cid
          (aput S cid [] ⟨tid, none, none⟩ c1 m1 false).1
          (aput S cid [] ⟨tid, none, none⟩ c1 m1 false).2 c2 m2 false).1
          ⟨tid, some "", some (cid c1)⟩ =
        some ⟨⟨tid, some "", some (cid c1)⟩, c1, m1, none⟩ := by
  intro C V S cid hrt tid c1 m1 c2 m2 hlt hne1
  have hne12 : cid c1 ≠ cid c2 := ne_of_lt hlt
  have hbne12 : (cid c1 == cid c2) = false := beq_eq_false_iff_ne.mpr hne12
  have hbne21 : (cid c2 == cid c1) = false := beq_eq_false_iff_ne.mpr hne12.symm
  have e1 : aput S cid [] (⟨tid, none, none⟩ : RunnableConfig) c1 m1 false =
      ([⟨tid, "", cid c1, none,
          S.json_loads (S.serde_dumps c1), S.json_loads (S.serde_dumps m1)⟩],
       ⟨tid, some "", some (cid c1)⟩) := by
    simp [aput, upsertRow]
  have e2 : aput S cid
      [(⟨tid, "", cid c1, none,
          S.json_loads (S.serde_dumps c1), S.json_loads (S.serde_dumps m1)⟩ :
            CheckpointRow V)]
      (⟨tid, some "", some (cid c1)⟩ : RunnableConfig) c2 m2 false =
      ([⟨tid, "", cid c1, none,
          S.json_loads (S.serde_dumps c1), S.json_loads (S.serde_dumps m1)⟩,
        ⟨tid, "", cid c2, some (cid c1),
          S.json_loads (S.serde_dumps c2), S.json_loads (S.serde_dumps m2)⟩],
       ⟨tid, some "", some (cid c2)⟩) := by
    simp [aput, upsertRow, sameKey, hbne12]
  refine ⟨?_, ?_, ?_, ?_⟩ <;>
    simp only [e1, e2] <;>
    simp [aget_tuple, matchesQuery, latestRow, hrt, hbne12, hbne21, hlt, hne1]

/-- Witness for C6 at concrete values: identity serializers (which satisfy
the round-trip contract), string checkpoints `"a" < "b"`, thread `"t"` —
reading latest after the two puts returns C2 with the parent link to C1. -/
theorem checkpoint_roundtrip_spec_witness :
    aget_tuple (⟨fun c => c, fun s => s, fun s => s, fun v => v⟩ : Serde String String)
      (aput (⟨fun c => c, fun s => s, fun s => s, fun v => v⟩ : Serde String String)
        (fun c => c)
        (aput (⟨fun c => c, fun s => s, fun s => s, fun v => v⟩ : Serde String String)
          (fun c => c) [] ⟨"t", none, none⟩ "a" "m1" false).1
        (aput (⟨fun c => c, fun s => s, fun s => s, fun v => v⟩ : Serde String String)
          (fun c => c) [] ⟨"t", none, none⟩ "a" "m1" false).2 "b" "m2" false).1
      ⟨"t", none, none⟩ =
      some ⟨⟨"t", none, none⟩, "b", "m2", some ⟨"t", some "", some "a"⟩⟩ := by
  exact (checkpoint_roundtrip_spec String String
    ⟨fun c => c, fun s => s, fun s => s, fun v => v⟩ (fun c => c)
    (fun _ => rfl) "t" "a" "m1" "b" "m2"
    (show ("a" : String) < "b" by
      rw [String.lt_iff_toList_lt]
      decide)
    (show ("a" : String) ≠ "" by decide)).2.2.1

/-- C7: `aput_writes` silently discards the supplied intermediate writes —
its body is `pass`.  At the concrete failing input (an empty
`checkpoint_writes` store and a nonempty batch of writes for a task) the
store after the call is still empty, and in general the call returns every
store unchanged whatever is supplied: nothing is ever persisted, directly
contradicting the claim (and the spec's stated minimal behavior). -/
theorem aput_writes_discards :
    aput_writes ([] : List (PendingWriteRow String)) ⟨"7", none, none⟩
      [("messages", "tool decision payload")] "task-1" = []
    ∧ ∀ (W : Type) (store : List (PendingWriteRow W)) (config : RunnableConfig)
        (writes : List (String × W)) (task_id : String),
        aput_writes store config writes task_id = store :=
  ⟨rfl, fun _ _ _ _ _ => rfl⟩

/-- C10: when the backing-store write raises during `aput`, the exception
is caught and the caller's original config is returned unchanged, with the
store untouched — the persistence failure never propagates, so the turn
proceeds as if the save succeeded even though no checkpoint was durably
written. -/
theorem aput_failure_returns_config :
    ∀ (C V : Type) (S : Serde C V) (cid : C → String)
      (db : List (CheckpointRow V)) (config : RunnableConfig) (c m : C),
      aput S cid db config c m true = (db, config) := by
  intro C V S cid db config c m
  rfl

theorem filter_system_of_filtered (msgs : List Msg) :
    (msgs.filter (fun m => m.role != Role.system)).filter
      (fun m => m.role == Role.system) = [] := by
  rw [List.filter_eq_nil_iff]
  intro m hm
  have h2 := (List.mem_filter.mp hm).2
  simp only [bne_iff_ne, ne_eq] at h2
  simp [h2]

/-! ## Claim theorems: C8 and C9 -/

/-- C8 counterexample: a `delete_event` call for a nonexistent id.  The
service raises `"HttpError 404: Event not found"`, but `delete_event`
swallows the exception and returns `False`, so the Tool message appended
for the call has content exactly `"False"` — it does not contain the error
text, contradicting the claim that the appended Tool-result message
contains the error text. -/
theorem delete_error_text_counterexample :
    service_delete ["evt-1"] "evt-404" =
      Except.error "HttpError 404: Event not found"
    ∧ (tool_message_of ⟨"call-9", "delete_event", "evt-404"⟩
        (run_delete_tool ["evt-1"] "evt-404")).content = "False"
    ∧ strContains "False" "HttpError 404: Event not found" = false := by
  refine ⟨rfl, rfl, by decide⟩

/-- C8 amended: for a `DeleteEvent` call on a nonexistent event id the tool
dispatch does not crash or abort the turn — `delete_event` returns `False`
leaving the calendar unchanged, the tool call returns normally, and the
state machine appends exactly one Tool message, correlated by the call ID,
whose content is the tool's failure indication `"False"` (the underlying
API error text is logged, not included); control then unconditionally
returns from `tools` to `agent` for every state; and any tool dispatch that
does raise has its error text captured as the content of the correlated
Tool message. -/
theorem tool_failure_amended :
    ∀ (events : List String) (call : ToolCall) (msgs : List Msg),
      events.contains call.args = false →
      delete_event events call.args = (false, events)
      ∧ run_delete_tool events call.args = Except.ok "False"
      ∧ (tool_node_delete_step events msgs call).1 =
          msgs ++ [{ id := none, role := Role.tool, content := "False",
                     tool_call_id := some call.id }]
      ∧ (tool_node_delete_step events msgs call).2 = events
      ∧ (∀ (s : List Msg), nextNode .tools s = some .agent)
      ∧ (∀ (c : ToolCall) (e : String),
          (tool_message_of c (Except.error e)).content = e
          ∧ (tool_message_of c (Except.error e)).tool_call_id = some c.id) := by
  intro events call msgs hmiss
  have hnm : call.args ∉ events := by simpa using hmiss
  have hdel : delete_event events call.args = (false, events) := by
    simp [delete_event, service_delete, hnm]
  refine ⟨hdel, ?_, ?_, ?_, ?_, ?_⟩
  · simp [run_delete_tool, hdel, boolText]
  · simp [tool_node_delete_step, tool_message_of, run_delete_tool, hdel, boolText]
  · simp [tool_node_delete_step, hdel]
  · intro s; rfl
  · intro c e; exact ⟨rfl, rfl⟩

/-- Witness for C8's amended theorem: deleting the nonexistent `"evt-404"`
from a calendar holding only `"evt-1"` appends the correlated `"False"`
Tool message and leaves the calendar unchanged. -/
theorem tool_failure_amended_witness :
    (tool_node_delete_step ["evt-1"] []
        ⟨"call-9", "delete_event", "evt-404"⟩).1 =
      [] ++ [{ id := none, role := Role.tool, content := "False",
               tool_call_id := some "call-9" }]
    ∧ nextNode .tools [] = some .agent := by
  have h := tool_failure_amended ["evt-1"] ⟨"call-9", "delete_event", "evt-404"⟩ []
    (by decide)
  exact ⟨h.2.2.1, h.2.2.2.2.1 []⟩

/-- C9: on every AGENT step the prompt sent to the model is a stateless
transform of the persisted history: it is exactly the freshly computed
system message followed by the stored messages with every stored
system-role message discarded; the prompt therefore contains exactly one
system message; the persisted history is not edited by the assembly — the
node's update appends the response, keeping the stored messages as an
unchanged prefix; and the fresh system message's content is the prompt
template filled with the current profile text and the current local time in
the user's stored timezone, or the UTC rendering when timezone resolution
fails. -/
theorem call_model_prompt_spec :
    ∀ (s : ProfileState) (tzRow : Option String)
      (localRender : String → Except Unit String) (utcRender : String)
      (msgs : List Msg) (llm : List Msg → Msg),
      (call_model (get_system_message s tzRow localRender utcRender) msgs llm).1 =
        get_system_message s tzRow localRender utcRender ::
          msgs.filter (fun m => m.role != Role.system)
      ∧ ((call_model (get_system_message s tzRow localRender utcRender) msgs llm).1.filter
          (fun m => m.role == Role.system)).length = 1
      ∧ apply_messages_update msgs
          [(call_model (get_system_message s tzRow localRender utcRender) msgs llm).2] =
          msgs ++ [(call_model (get_system_message s tzRow localRender utcRender) msgs llm).2]
      ∧ (apply_messages_update msgs
          [(call_model (get_system_message s tzRow localRender utcRender) msgs llm).2]).take
            msgs.length = msgs
      ∧ (∀ t, localRender (get_user_timezone tzRow) = Except.ok t →
          (get_system_message s tzRow localRender utcRender).content =
            ORBIT_SYSTEM_PROMPT (get_user_profile s).1 t)
      ∧ (localRender (get_user_timezone tzRow) = Except.error () →
          (get_system_message s tzRow localRender utcRender).content =
            ORBIT_SYSTEM_PROMPT (get_user_profile s).1 utcRender) := by
  intro s tzRow localRender utcRender msgs llm
  refine ⟨rfl, ?_, rfl, ?_, ?_, ?_⟩
  · show ((get_system_message s tzRow localRender utcRender ::
        msgs.filter (fun m => m.role != Role.system)).filter
          (fun m => m.role == Role.system)).length = 1
    rw [List.filter_cons]
    simp [get_system_message, filter_system_of_filtered]
  · show (msgs ++ [(call_model (get_system_message s tzRow localRender utcRender) msgs llm).2]).take
        msgs.length = msgs
    exact List.take_left msgs _
  · intro t ht
    simp [get_system_message, current_time_str, ht]
  · intro ht
    simp [get_system_message, current_time_str, ht]

/-- Witness for C9 at a concrete input: a history holding an old system
message and a user message, a timezone collaborator that fails — the prompt
is the fresh system message (rendered with the UTC fallback) followed by
only the user message, and the stored history survives as a prefix of the
updated history. -/
theorem call_model_prompt_spec_witness :
    (call_model (get_system_message none none (fun _ => Except.error ()) "2026-01-01 00:00:00 UTC")
        [({ role := Role.system, content := "old" } : Msg),
         ({ role := Role.user, content := "hi" } : Msg)]
        (fun _ => { role := Role.assistant, content := "ok" })).1 =
      get_system_message none none (fun _ => Except.error ()) "2026-01-01 00:00:00 UTC" ::
        ([({ role := Role.system, content := "old" } : Msg),
          ({ role := Role.user, content := "hi" } : Msg)]).filter
          (fun m => m.role != Role.system)
    ∧ (get_system_message none none (fun _ => Except.error ())
        "2026-01-01 00:00:00 UTC").content =
        ORBIT_SYSTEM_PROMPT (get_user_profile none).1 "2026-01-01 00:00:00 UTC" := by
  have h := call_model_prompt_spec none none (fun _ => Except.error ())
    "2026-01-01 00:00:00 UTC"
    [({ role := Role.system, content := "old" } : Msg),
     ({ role := Role.user, content := "hi" } : Msg)]
    (fun _ => { role := Role.assistant, content := "ok" })
  exact ⟨h.1, h.2.2.2.2.2 rfl⟩

end Orbit
